import Mathlib

/-!
Verification of the queued reader-writer lock (`queuedrwlock`).

We shallowly embed the admission state machine of `src/raw.rs` and the
guard layer of `src/lib.rs`:

* `QueuedRwLock.State` mirrors `struct State` and its methods;
* the engine operations are embedded twice: as pure sequential
  functions on `State` (`try_read`, `write_seq`, `try_write_skip_queue`,
  ...), where `none` models blocking or a `usize` arithmetic panic, and
  as a labelled small-step transition relation `Step` over
  configurations carrying the per-writer program phase, which captures
  every interleaving of the protocol operations;
* `Reach` is reachability from the freshly constructed lock.

Machine integers (`usize`) are modelled as `Nat`; the one place where
the source can underflow (`State::queue_empty`) is made explicit by an
`Option` result.
-/

namespace QueuedRwLock

/-- The admission state guarded by the internal mutex, mirroring
`struct State` in src/raw.rs: current writer flag, active reader count,
next eligible ticket, and count of tickets ever issued. -/
structure State where
  writer : Bool
  readers : Nat
  next_ticket : Nat
  total_tickets : Nat
deriving DecidableEq, Repr

namespace State

/-- Rust `State::new`: all fields zeroed. -/
def new : State := ⟨false, 0, 0, 0⟩

/-- Rust `State::add_reader`: `self.readers += 1`. -/
def add_reader (s : State) : State := { s with readers := s.readers + 1 }

/-- Rust `State::remove_reader`: `self.readers -= 1`. The `usize` subtraction
would panic at zero; per the spec the guard layer guarantees balance, and
every use below is guarded by `readers > 0`. -/
def remove_reader (s : State) : State := { s with readers := s.readers - 1 }

/-- Rust `State::has_readers`: `self.readers != 0`. -/
def has_readers (s : State) : Bool := s.readers != 0

/-- Rust `State::add_writer`: `self.next_ticket += 1; self.writer = true`. -/
def add_writer (s : State) : State :=
  { s with next_ticket := s.next_ticket + 1, writer := true }

/-- Rust `State::remove_writer`: `self.writer = false`. -/
def remove_writer (s : State) : State := { s with writer := false }

/-- Rust `State::has_writer`: `self.writer`. -/
def has_writer (s : State) : Bool := s.writer

/-- Rust `State::take_ticket`: returns the current `total_tickets` and
increments it. -/
def take_ticket (s : State) : Nat × State :=
  (s.total_tickets, { s with total_tickets := s.total_tickets + 1 })

/-- Rust `State::is_next`: `self.next_ticket == ticket`. -/
def is_next (s : State) (ticket : Nat) : Bool := s.next_ticket == ticket

/-- Rust `State::queue_empty`: `self.next_ticket == self.total_tickets - 1`
over `usize`. The subtraction underflows when `total_tickets == 0`
(a panic in a checked build); that branch is `none`. -/
def queue_empty (s : State) : Option Bool :=
  if s.total_tickets = 0 then none
  else some (s.next_ticket == s.total_tickets - 1)

end State

/-- Rust `RawQueuedRwLock::try_read`: under the mutex, if `!has_writer()` then
`add_reader()` and return true, else return false. Returns the result
and the state afterwards. -/
def try_read (s : State) : Bool × State :=
  if !s.has_writer then (true, s.add_reader) else (false, s)

/-- Rust `RawQueuedRwLock::try_write_skip_queue`: succeeds only when
`!has_writer() && !has_readers() && queue_empty()`, in which case it runs
`take_ticket()` then `add_writer()`. `none` models the `usize` underflow
panic inside `queue_empty` (reached only after the first two conjuncts
pass, mirroring `&&` short-circuiting). -/
def try_write_skip_queue (s : State) : Option (Bool × State) :=
  if !s.has_writer && !s.has_readers then
    match s.queue_empty with
    | none => none
    | some true => some (true, (s.take_ticket).2.add_writer)
    | some false => some (false, s)
  else some (false, s)

/-- Rust `RawQueuedRwLock::write(ticket)` run in isolation (no other thread
interferes): the call completes immediately iff the first wait loop's
condition `has_writer() && !is_next(ticket)` is false on entry and,
after `add_writer()`, the second loop's condition `has_readers()` is
false; `none` models the call blocking. -/
def write_seq (s : State) (ticket : Nat) : Option State :=
  if (!s.has_writer || s.is_next ticket) && !s.add_writer.has_readers then
    some s.add_writer
  else none

/-- Rust `RawQueuedRwLock::write_unlock`: `remove_writer()` (the
`notify_all` has no effect on the admission state). -/
def write_unlock (s : State) : State := s.remove_writer

/-- Rust `Drop for QueuedRwLockTicketGuard` (src/lib.rs lines 185-192), run in
isolation: the destructor of an unredeemed ticket guard calls
`write(self.ticket)` and then `write_unlock()`. -/
def drop_ticket_guard (s : State) (ticket : Nat) : Option State :=
  (write_seq s ticket).map write_unlock

/-- The error type of the non-blocking probes in src/lib.rs
(`std::sync::TryLockError`, with poisoning out of scope here). -/
inductive TryError where
  | WouldBlock
deriving DecidableEq, Repr

/-- Rust `QueuedRwLock::try_read` (src/lib.rs lines 43-49): forwards to the
raw probe; on failure returns `Err(TryLockError::WouldBlock)`, on
success yields a read guard over the updated admission state. -/
def lib_try_read (s : State) : Except TryError State :=
  if (try_read s).1 then Except.ok (try_read s).2
  else Except.error TryError.WouldBlock

/-- Rust `QueuedRwLockTicketGuard::write` (src/lib.rs lines 176-179):
redeems the held ticket by calling the raw `write(self.ticket)`;
the pair records which ticket the resulting write guard consumed. -/
def ticket_guard_write (s : State) (ticket : Nat) : Option (Nat × State) :=
  (write_seq s ticket).map (fun s2 => (ticket, s2))

/-- Rust `QueuedRwLock::write` (src/lib.rs lines 56-59):
`let ticket = self.take_ticket(); ticket.write()`. -/
def handle_write (s : State) : Option (Nat × State) :=
  ticket_guard_write (s.take_ticket).2 (s.take_ticket).1

/-- Written from the spec's words for the refinement claim: a write
guard is produced by taking a ticket and then immediately redeeming
that ticket guard via its `write()` method. -/
def spec_take_then_redeem (s : State) : Option (Nat × State) :=
  match s.take_ticket with
  | (t, s1) => ticket_guard_write s1 t

/-! ### The interleaving semantics

A configuration pairs the shared admission state with the program phase
of every writer that has been issued a ticket (by `take_ticket` or
synthetically by `try_write_skip_queue`).  Readers need no recorded
phase: acquisition and release are single atomic critical sections, and
the number of current holders is exactly `State.readers`.

Each constructor of `Step` is one critical section of src/raw.rs.  A
blocking wait (`Condvar::wait` in a `while` loop) appears as a guard:
the final loop iteration re-checks the condition and, finding it false,
falls through and performs the subsequent mutations while still holding
the mutex, so "condition false, then mutate" is a single atomic step. -/

/-- The phase of a writer inside `RawQueuedRwLock::write`:
`waitTurn` = ticket issued, still in (or before) the first wait loop;
`draining` = past `add_writer()`, waiting in the second loop for
readers to drain; `holding` = returned from `write`, holding exclusive
access; `done` = `write_unlock` performed. -/
inductive WPhase where
  | waitTurn
  | draining
  | holding
  | done
deriving DecidableEq, Repr

/-- One issued ticket together with the phase of the writer redeeming
it (a dropped, unredeemed ticket guard runs the same `write`;
`write_unlock` path through its destructor). -/
structure Writer where
  ticket : Nat
  phase : WPhase
deriving DecidableEq, Repr

/-- A whole-lock configuration: the shared `State` plus the issued
tickets' writers, in order of issuance. -/
structure Config where
  st : State
  writers : List Writer
deriving DecidableEq, Repr

/-- Transition labels, one per critical section of the engine. -/
inductive Label where
  | readAcq
  | readRel
  | takeT
  | writeEnter (t : Nat)
  | drainExit (t : Nat)
  | writeRel (t : Nat)
  | skipQ
deriving DecidableEq, Repr

/-- The small-step interleaving semantics of `RawQueuedRwLock`, one
constructor per critical section. -/
inductive Step : Config → Label → Config → Prop where
  /-- Rust `read` (final loop check finds `!has_writer()`) or a successful
  `try_read`: guard `has_writer() = false`, then `add_reader()`. -/
  | readAcq (s : State) (ws : List Writer) (hw : s.has_writer = false) :
      Step ⟨s, ws⟩ Label.readAcq ⟨s.add_reader, ws⟩
  /-- Rust `read_unlock` by one of the `readers > 0` current holders:
  `remove_reader()` (the notifications do not change the state). -/
  | readRel (s : State) (ws : List Writer) (hr : 0 < s.readers) :
      Step ⟨s, ws⟩ Label.readRel ⟨s.remove_reader, ws⟩
  /-- Rust `take_ticket`: issue ticket `total_tickets`, increment it, and a
  new writer joins in phase `waitTurn`. -/
  | takeT (s : State) (ws : List Writer) :
      Step ⟨s, ws⟩ Label.takeT
        ⟨(s.take_ticket).2, ws ++ [⟨(s.take_ticket).1, WPhase.waitTurn⟩]⟩
  /-- Rust `write(t)`, exit of the first wait loop: the loop condition
  `has_writer() && !is_next(t)` is false, i.e. `!has_writer() || is_next(t)`;
  then `add_writer()` runs and the second loop's condition is checked in
  the same critical section: with readers present the writer waits in
  `draining`, otherwise `write` returns and it is `holding`. -/
  | writeEnter (s : State) (pre post : List Writer) (t : Nat)
      (hg : s.has_writer = false ∨ s.is_next t = true) :
      Step ⟨s, pre ++ ⟨t, WPhase.waitTurn⟩ :: post⟩ (Label.writeEnter t)
        ⟨s.add_writer,
          pre ++ ⟨t, if s.add_writer.has_readers then WPhase.draining
                     else WPhase.holding⟩ :: post⟩
  /-- Rust `write(t)`, exit of the second wait loop: `has_readers()` is
  false, `write` returns. -/
  | drainExit (s : State) (pre post : List Writer) (t : Nat)
      (hr : s.has_readers = false) :
      Step ⟨s, pre ++ ⟨t, WPhase.draining⟩ :: post⟩ (Label.drainExit t)
        ⟨s, pre ++ ⟨t, WPhase.holding⟩ :: post⟩
  /-- Rust `write_unlock` by the holder of ticket `t` (directly, via the
  write guard's destructor, or via the unredeemed ticket guard's
  destructor): `remove_writer()`. -/
  | writeRel (s : State) (pre post : List Writer) (t : Nat) :
      Step ⟨s, pre ++ ⟨t, WPhase.holding⟩ :: post⟩ (Label.writeRel t)
        ⟨s.remove_writer, pre ++ ⟨t, WPhase.done⟩ :: post⟩
  /-- successful `try_write_skip_queue`: all three conjuncts hold (so
  `queue_empty()` evaluated without underflow), then `take_ticket()` and
  `add_writer()` run; the synthetic ticket is born already `holding`. -/
  | skipQ (s : State) (ws : List Writer)
      (hw : s.has_writer = false) (hr : s.has_readers = false)
      (hq : s.queue_empty = some true) :
      Step ⟨s, ws⟩ Label.skipQ
        ⟨(s.take_ticket).2.add_writer,
          ws ++ [⟨(s.take_ticket).1, WPhase.holding⟩]⟩

/-- Some protocol step. -/
def StepAny (c c' : Config) : Prop := ∃ l, Step c l c'

/-- The configuration of a freshly constructed lock. -/
def init : Config := ⟨State.new, []⟩

/-- Reachability from the freshly constructed lock by any interleaving
of the protocol operations. -/
def Reach (c : Config) : Prop := Relation.ReflTransGen StepAny init c

/-! ### The inductive invariant -/

/-- Number of issued tickets whose writer has not yet executed
`add_writer()`. -/
def waitingCount (ws : List Writer) : Nat :=
  ws.countP (fun w => decide (w.phase = WPhase.waitTurn))

/-- The inductive invariant: the tickets on record are exactly
`0, 1, ..., total_tickets - 1` in issuance order; `next_ticket` plus the
tickets still before their `add_writer()` never exceeds
`total_tickets`; and the writer flag can coexist with active readers
only while some admitted writer is still draining them. -/
def Inv (c : Config) : Prop :=
  c.writers.map Writer.ticket = List.range c.st.total_tickets
  ∧ c.st.next_ticket + waitingCount c.writers ≤ c.st.total_tickets
  ∧ (c.st.writer = true → 0 < c.st.readers →
      ∃ w ∈ c.writers, w.phase = WPhase.draining)

lemma has_readers_eq_false {s : State} :
    s.has_readers = false ↔ s.readers = 0 := by
  simp [State.has_readers]

lemma has_readers_eq_true {s : State} :
    s.has_readers = true ↔ 0 < s.readers := by
  simp [State.has_readers, Nat.pos_iff_ne_zero]

lemma waitingCount_mid_wait (pre post : List Writer) (t : Nat) :
    waitingCount (pre ++ ⟨t, WPhase.waitTurn⟩ :: post)
      = waitingCount pre + waitingCount post + 1 := by
  simp [waitingCount, List.countP_append, List.countP_cons]
  omega

lemma waitingCount_mid_not (pre post : List Writer) (t : Nat) (p : WPhase)
    (hp : p ≠ WPhase.waitTurn) :
    waitingCount (pre ++ ⟨t, p⟩ :: post)
      = waitingCount pre + waitingCount post := by
  cases p with
  | waitTurn => exact absurd rfl hp
  | draining => simp [waitingCount, List.countP_append, List.countP_cons]
  | holding => simp [waitingCount, List.countP_append, List.countP_cons]
  | done => simp [waitingCount, List.countP_append, List.countP_cons]

lemma waitingCount_snoc_wait (ws : List Writer) (t : Nat) :
    waitingCount (ws ++ [⟨t, WPhase.waitTurn⟩]) = waitingCount ws + 1 := by
  simp [waitingCount, List.countP_append, List.countP_cons]

lemma waitingCount_snoc_holding (ws : List Writer) (t : Nat) :
    waitingCount (ws ++ [⟨t, WPhase.holding⟩]) = waitingCount ws := by
  simp [waitingCount, List.countP_append, List.countP_cons]

lemma map_ticket_mid (pre post : List Writer) (t : Nat) (p : WPhase) :
    (pre ++ ⟨t, p⟩ :: post).map Writer.ticket
      = pre.map Writer.ticket ++ t :: post.map Writer.ticket := by
  simp

/-- Every protocol step preserves the inductive invariant. -/
lemma step_inv {c c' : Config} {l : Label} (h : Step c l c') (hi : Inv c) :
    Inv c' := by
  obtain ⟨h1, h2, h3⟩ := hi
  cases h with
  | readAcq s ws hw =>
      dsimp only [Inv, State.add_reader] at *
      refine ⟨h1, h2, ?_⟩
      intro hw' _
      simp only [State.has_writer] at hw
      simp [hw] at hw'
  | readRel s ws hr =>
      dsimp only [Inv, State.remove_reader] at *
      refine ⟨h1, h2, ?_⟩
      intro hw' hr'
      exact h3 hw' (by omega)
  | takeT s ws =>
      dsimp only [Inv, State.take_ticket] at *
      refine ⟨?_, ?_, ?_⟩
      · simp only [List.map_append, List.map_cons, List.map_nil,
          List.range_succ, h1]
      · rw [waitingCount_snoc_wait]
        omega
      · intro hw' hr'
        obtain ⟨w, hwmem, hwph⟩ := h3 hw' hr'
        exact ⟨w, by simp [hwmem], hwph⟩
  | writeEnter s pre post t hg =>
      dsimp only [Inv, State.add_writer] at *
      rw [waitingCount_mid_wait] at h2
      refine ⟨?_, ?_, ?_⟩
      · rw [map_ticket_mid]
        rw [map_ticket_mid] at h1
        exact h1
      · have hne : (if State.has_readers ⟨true, s.readers,
              s.next_ticket + 1, s.total_tickets⟩ then WPhase.draining
              else WPhase.holding) ≠ WPhase.waitTurn := by
          cases hb : State.has_readers ⟨true, s.readers,
              s.next_ticket + 1, s.total_tickets⟩ <;> simp
        rw [waitingCount_mid_not _ _ _ _ hne]
        omega
      · intro _ hr'
        have hb : State.has_readers ⟨true, s.readers,
            s.next_ticket + 1, s.total_tickets⟩ = true := by
          rw [has_readers_eq_true]
          exact hr'
        refine ⟨⟨t, WPhase.draining⟩, ?_, rfl⟩
        rw [hb]
        simp
  | drainExit s pre post t hr =>
      dsimp only [Inv] at *
      rw [has_readers_eq_false] at hr
      refine ⟨?_, ?_, ?_⟩
      · rw [map_ticket_mid]
        rw [map_ticket_mid] at h1
        exact h1
      · rw [waitingCount_mid_not _ _ _ _ (by simp)]
        rw [waitingCount_mid_not _ _ _ _ (by simp)] at h2
        omega
      · intro _ hr'
        omega
  | writeRel s pre post t =>
      dsimp only [Inv, State.remove_writer] at *
      refine ⟨?_, ?_, ?_⟩
      · rw [map_ticket_mid]
        rw [map_ticket_mid] at h1
        exact h1
      · rw [waitingCount_mid_not _ _ _ _ (by simp)]
        rw [waitingCount_mid_not _ _ _ _ (by simp)] at h2
        omega
      · intro hw' _
        cases hw'
  | skipQ s ws hw hr hq =>
      dsimp only [Inv, State.take_ticket, State.add_writer] at *
      rw [has_readers_eq_false] at hr
      refine ⟨?_, ?_, ?_⟩
      · simp only [List.map_append, List.map_cons, List.map_nil,
          List.range_succ, h1]
      · rw [waitingCount_snoc_holding]
        omega
      · intro _ hr'
        omega

/-- The invariant holds in every reachable configuration. -/
lemma reach_inv {c : Config} (h : Reach c) : Inv c := by
  induction h with
  | refl =>
      refine ⟨rfl, ?_, ?_⟩
      · simp [init, State.new, waitingCount]
      · intro hw _
        cases hw
  | tail hstep hlast ih =>
      obtain ⟨l, hl⟩ := hlast
      exact step_inv hl ih

/-! ### Concrete executions -/

/-- Issue one ticket on a fresh lock: ticket 0 outstanding, unclaimed. -/
lemma reach_one_ticket :
    Reach ⟨⟨false, 0, 0, 1⟩, [⟨0, WPhase.waitTurn⟩]⟩ :=
  Relation.ReflTransGen.tail Relation.ReflTransGen.refl
    ⟨Label.takeT, Step.takeT State.new []⟩

/-- ... then a reader is admitted. -/
lemma reach_reader_and_ticket :
    Reach ⟨⟨false, 1, 0, 1⟩, [⟨0, WPhase.waitTurn⟩]⟩ :=
  Relation.ReflTransGen.tail reach_one_ticket
    ⟨Label.readAcq, Step.readAcq ⟨false, 0, 0, 1⟩ [⟨0, WPhase.waitTurn⟩] rfl⟩

/-- ... then the writer with ticket 0 passes `add_writer()` and waits
for the reader to drain: the writer flag and a positive reader count
coexist. -/
lemma reach_drain :
    Reach ⟨⟨true, 1, 1, 1⟩, [⟨0, WPhase.draining⟩]⟩ :=
  Relation.ReflTransGen.tail reach_reader_and_ticket
    ⟨Label.writeEnter 0,
      Step.writeEnter ⟨false, 1, 0, 1⟩ [] [] 0 (Or.inl rfl)⟩

/-- Issue two tickets on a fresh lock, redeeming neither. -/
lemma reach_two_tickets :
    Reach ⟨⟨false, 0, 0, 2⟩,
      [⟨0, WPhase.waitTurn⟩, ⟨1, WPhase.waitTurn⟩]⟩ :=
  Relation.ReflTransGen.tail reach_one_ticket
    ⟨Label.takeT, Step.takeT ⟨false, 0, 0, 1⟩ [⟨0, WPhase.waitTurn⟩]⟩

/-- ... then the holder of ticket 1 calls `write(1)`.  Because no writer
currently holds the lock, the first wait loop's condition
`has_writer() && !is_next(1)` is already false, so ticket 1 is admitted
and reaches the held state while ticket 0 has never been admitted. -/
lemma reach_second_ticket_first :
    Reach ⟨⟨true, 0, 1, 2⟩,
      [⟨0, WPhase.waitTurn⟩, ⟨1, WPhase.holding⟩]⟩ :=
  Relation.ReflTransGen.tail reach_two_tickets
    ⟨Label.writeEnter 1,
      Step.writeEnter ⟨false, 0, 0, 2⟩ [⟨0, WPhase.waitTurn⟩] [] 1
        (Or.inl rfl)⟩

/-! ### The claims -/

/-- C1: the claim (try_write_skip_queue must fail whenever a ticket is
outstanding unclaimed, and succeed in every other state) contradicts the
code.  In the reachable state with writer flag clear, no readers, and
ticket 0 issued but unclaimed (`next_ticket = 0 < 1 = total_tickets`)
the claim and the source's own comment ("Only succeeds if there are no
pending writes") require failure, yet `try_write_skip_queue` succeeds
and takes the lock ahead of ticket 0.  On the fresh lock, where the
claim requires success, the `queue_empty` check instead underflows. -/
theorem C1_skip_queue_code_bug :
    Reach ⟨⟨false, 0, 0, 1⟩, [⟨0, WPhase.waitTurn⟩]⟩
    ∧ (⟨false, 0, 0, 1⟩ : State).next_ticket
        < (⟨false, 0, 0, 1⟩ : State).total_tickets
    ∧ try_write_skip_queue ⟨false, 0, 0, 1⟩
        = some (true, ⟨true, 0, 1, 2⟩)
    ∧ try_write_skip_queue State.new = none :=
  ⟨reach_one_ticket, by decide, by decide, by decide⟩

/-- C2, counterexample: the claim as stated ("at no instant do
`reader_count > 0` and `writer_held` hold simultaneously") is false.
From the fresh lock: issue ticket 0, admit a reader, then let the
ticket-0 writer execute `add_writer()`; it now waits for the reader to
drain in a reachable configuration with `writer = true` and
`readers = 1`. -/
theorem C2_mutual_exclusion_counterexample :
    Reach ⟨⟨true, 1, 1, 1⟩, [⟨0, WPhase.draining⟩]⟩
    ∧ (⟨true, 1, 1, 1⟩ : State).writer = true
    ∧ 0 < (⟨true, 1, 1, 1⟩ : State).readers :=
  ⟨reach_drain, rfl, by decide⟩

/-- C2, amended: `reader_count > 0` and `writer_held = true` can
coexist only while some admitted writer is still in its reader-draining
wait inside `write` — in every reachable configuration where both hold,
a writer in phase `draining` exists. -/
theorem C2_mutual_exclusion_amended (c : Config) (h : Reach c)
    (hw : c.st.writer = true) (hr : 0 < c.st.readers) :
    ∃ w ∈ c.writers, w.phase = WPhase.draining :=
  (reach_inv h).2.2 hw hr

/-- C2, witness for the amended theorem at the drain configuration. -/
theorem C2_mutual_exclusion_witness :
    ∃ w ∈ ([⟨0, WPhase.draining⟩] : List Writer),
      w.phase = WPhase.draining :=
  C2_mutual_exclusion_amended ⟨⟨true, 1, 1, 1⟩, [⟨0, WPhase.draining⟩]⟩
    reach_drain rfl (by decide)

/-- C3: writer FIFO fails on the code.  Issue tickets 0 and 1 from a
fresh lock and redeem ticket 1 first: since no writer holds the lock,
the first wait loop's condition `has_writer() && !is_next(1)` is false
and `write(1)` completes immediately, so the writer redeeming ticket 1
reaches the held state in a reachable configuration in which the writer
redeeming ticket 0 has never reached it — despite `0 < 1`.  This also
contradicts the source's comment that unredeemed tickets "deadlock all
future callers". -/
theorem C3_writer_fifo_code_bug :
    Reach ⟨⟨true, 0, 1, 2⟩,
      [⟨0, WPhase.waitTurn⟩, ⟨1, WPhase.holding⟩]⟩
    ∧ (0 : Nat) < 1
    ∧ (⟨1, WPhase.holding⟩ : Writer).phase = WPhase.holding
    ∧ (⟨0, WPhase.waitTurn⟩ : Writer).phase ≠ WPhase.holding :=
  ⟨reach_second_ticket_first, by decide, rfl, by decide⟩

/-- C4: dropping a never-redeemed ticket guard runs `write(ticket)`
then `write_unlock()`; whenever that destructor completes,
`next_ticket` has advanced by exactly one, `readers` is unchanged, and
the writer flag is not left set. -/
theorem C4_drop_ticket_guard_frame (s : State) (t : Nat) (s2 : State)
    (h : drop_ticket_guard s t = some s2) :
    s2.next_ticket = s.next_ticket + 1
    ∧ s2.readers = s.readers
    ∧ s2.writer = false := by
  simp only [drop_ticket_guard, write_seq] at h
  split at h
  · simp only [Option.map_some', Option.some.injEq] at h
    subst h
    exact ⟨rfl, rfl, rfl⟩
  · simp at h

/-- C4, witness: dropping the unredeemed ticket 0 on a lock with one
issued ticket and no contention. -/
theorem C4_drop_ticket_guard_witness :
    (⟨false, 0, 1, 1⟩ : State).next_ticket
        = (⟨false, 0, 0, 1⟩ : State).next_ticket + 1
    ∧ (⟨false, 0, 1, 1⟩ : State).readers
        = (⟨false, 0, 0, 1⟩ : State).readers
    ∧ (⟨false, 0, 1, 1⟩ : State).writer = false :=
  C4_drop_ticket_guard_frame ⟨false, 0, 0, 1⟩ 0 ⟨false, 0, 1, 1⟩
    (by decide)

/-- C5: the queue-empty check computes
`next_ticket == total_tickets - 1` over unsigned integers, whose
subtraction underflows exactly in the states where no ticket has ever
been issued; the underflowing branch is reached from the initial state
by calling `try_write_skip_queue` on the fresh idle lock. -/
theorem C5_queue_empty_underflow :
    (∀ w r n, State.queue_empty ⟨w, r, n, 0⟩ = none)
    ∧ (∀ w r n k, State.queue_empty ⟨w, r, n, k + 1⟩
        = some (n == k))
    ∧ State.new.total_tickets = 0
    ∧ try_write_skip_queue State.new = none := by
  refine ⟨?_, ?_, rfl, by decide⟩
  · intro w r n
    simp [State.queue_empty]
  · intro w r n k
    simp [State.queue_empty]

/-- C6: `write(ticket)` is two-phase.  (i) A writer leaves its first
wait exactly under the negation of the loop condition
`has_writer() && !is_next(ticket)`, and that step performs
`add_writer()` — incrementing `next_ticket` and setting the writer
flag — moving the writer to the reader-draining wait unless the reader
count is already zero; (ii) the draining wait is left only when
`has_readers()` is false and changes no state; (iii) a writer can newly
reach the held state only in a step whose starting state has no
readers. -/
theorem C6_write_two_phase :
    (∀ c c2 t, Step c (Label.writeEnter t) c2 →
      (c.st.has_writer = false ∨ c.st.is_next t = true)
      ∧ c2.st = c.st.add_writer
      ∧ c2.st.next_ticket = c.st.next_ticket + 1
      ∧ c2.st.writer = true
      ∧ ∃ pre post, c.writers = pre ++ ⟨t, WPhase.waitTurn⟩ :: post
          ∧ c2.writers = pre
              ++ ⟨t, if c.st.readers = 0 then WPhase.holding
                     else WPhase.draining⟩ :: post)
    ∧ (∀ c c2 t, Step c (Label.drainExit t) c2 →
      c.st.readers = 0 ∧ c2.st = c.st
      ∧ ∃ pre post, c.writers = pre ++ ⟨t, WPhase.draining⟩ :: post
          ∧ c2.writers = pre ++ ⟨t, WPhase.holding⟩ :: post)
    ∧ (∀ c l c2 w, Step c l c2 → w ∈ c2.writers →
        w.phase = WPhase.holding → w ∈ c.writers ∨ c.st.readers = 0) := by
  refine ⟨?_, ?_, ?_⟩
  · intro c c2 t h
    cases h with
    | writeEnter s pre post t hg =>
        refine ⟨hg, rfl, rfl, rfl, pre, post, rfl, ?_⟩
        cases hr0 : s.readers with
        | zero =>
            simp [State.add_writer, State.has_readers, hr0]
        | succ n =>
            simp [State.add_writer, State.has_readers, hr0]
  · intro c c2 t h
    cases h with
    | drainExit s pre post t hr =>
        exact ⟨has_readers_eq_false.mp hr, rfl, pre, post, rfl, rfl⟩
  · intro c l c2 w h hmem hph
    cases h with
    | readAcq s ws hw => exact Or.inl hmem
    | readRel s ws hr => exact Or.inl hmem
    | takeT s ws =>
        rcases List.mem_append.mp hmem with hl | hr
        · exact Or.inl hl
        · simp at hr
          rw [hr] at hph
          cases hph
    | writeEnter s pre post t hg =>
        rcases List.mem_append.mp hmem with hl | hr
        · exact Or.inl (List.mem_append_left _ hl)
        · rcases List.mem_cons.mp hr with hmid | hpost
          · cases hb : s.add_writer.has_readers with
            | true =>
                rw [hb] at hmid
                rw [hmid] at hph
                cases hph
            | false =>
                refine Or.inr ?_
                have := has_readers_eq_false.mp hb
                simpa [State.add_writer] using this
          · exact Or.inl (List.mem_append_right _ (List.mem_cons_of_mem _ hpost))
    | drainExit s pre post t hr =>
        exact Or.inr (has_readers_eq_false.mp hr)
    | writeRel s pre post t =>
        rcases List.mem_append.mp hmem with hl | hr
        · exact Or.inl (List.mem_append_left _ hl)
        · rcases List.mem_cons.mp hr with hmid | hpost
          · rw [hmid] at hph
            cases hph
          · exact Or.inl (List.mem_append_right _ (List.mem_cons_of_mem _ hpost))
    | skipQ s ws hw hr hq =>
        exact Or.inr (has_readers_eq_false.mp hr)

/-- C6, witness: admission of ticket 0 on a lock with one issued ticket
and neither writer nor readers; the loop-exit guard held there. -/
theorem C6_write_two_phase_witness :
    (⟨⟨false, 0, 0, 1⟩, [⟨0, WPhase.waitTurn⟩]⟩ : Config).st.has_writer
        = false
    ∨ (⟨⟨false, 0, 0, 1⟩, [⟨0, WPhase.waitTurn⟩]⟩ : Config).st.is_next 0
        = true :=
  (C6_write_two_phase.1 ⟨⟨false, 0, 0, 1⟩, [⟨0, WPhase.waitTurn⟩]⟩
      ⟨⟨true, 0, 1, 1⟩, [⟨0, WPhase.holding⟩]⟩ 0
      (Step.writeEnter ⟨false, 0, 0, 1⟩ [] [] 0 (Or.inl rfl))).1

/-- C7: the admission state starts all-zero; `total_tickets` never
decreases under any protocol step; and in every reachable
configuration `next_ticket ≤ total_tickets` and the tickets on record
are exactly `0, 1, ..., total_tickets - 1` in issuance order — so
tickets are issued in strictly increasing order starting at 0 and are
never reused. -/
theorem C7_state_lifecycle :
    State.new = ⟨false, 0, 0, 0⟩
    ∧ (∀ c l c2, Step c l c2 →
        c.st.total_tickets ≤ c2.st.total_tickets)
    ∧ (∀ c, Reach c →
        c.st.next_ticket ≤ c.st.total_tickets
        ∧ c.writers.map Writer.ticket = List.range c.st.total_tickets
        ∧ List.Pairwise (fun w1 w2 => w1.ticket < w2.ticket) c.writers
        ∧ ∀ w ∈ c.writers, w.ticket < c.st.total_tickets) := by
  refine ⟨rfl, ?_, ?_⟩
  · intro c l c2 h
    cases h with
    | readAcq s ws hw => exact Nat.le_refl _
    | readRel s ws hr => exact Nat.le_refl _
    | takeT s ws => exact Nat.le_succ _
    | writeEnter s pre post t hg => exact Nat.le_refl _
    | drainExit s pre post t hr => exact Nat.le_refl _
    | writeRel s pre post t => exact Nat.le_refl _
    | skipQ s ws hw hr hq => exact Nat.le_succ _
  · intro c h
    obtain ⟨h1, h2, _⟩ := reach_inv h
    have hpair :
        List.Pairwise (fun w1 w2 => w1.ticket < w2.ticket) c.writers := by
      have hr := List.pairwise_lt_range c.st.total_tickets
      rw [← h1] at hr
      exact List.pairwise_map.mp hr
    have hmem : ∀ w ∈ c.writers, w.ticket < c.st.total_tickets := by
      intro w hw
      have hx : w.ticket ∈ c.writers.map Writer.ticket :=
        List.mem_map_of_mem _ hw
      rw [h1] at hx
      exact List.mem_range.mp hx
    exact ⟨le_trans (Nat.le_add_right _ _) h2, h1, hpair, hmem⟩

/-- C7, witness: at the freshly constructed lock, reachable in zero
steps. -/
theorem C7_state_lifecycle_witness :
    init.st.next_ticket ≤ init.st.total_tickets :=
  ((C7_state_lifecycle.2.2) init Relation.ReflTransGen.refl).1

/-- C8: `try_read` succeeds exactly when `has_writer()` is false, in
which case it only increments the reader count; otherwise it leaves the
state unchanged and the handle-level probe reports `WouldBlock`. -/
theorem C8_try_read_spec (s : State) :
    ((try_read s).1 = true ↔ s.has_writer = false)
    ∧ ((try_read s).1 = true →
        (try_read s).2.readers = s.readers + 1
        ∧ (try_read s).2.writer = s.writer
        ∧ (try_read s).2.next_ticket = s.next_ticket
        ∧ (try_read s).2.total_tickets = s.total_tickets)
    ∧ ((try_read s).1 = false →
        (try_read s).2 = s
        ∧ lib_try_read s = Except.error TryError.WouldBlock) := by
  cases hb : s.writer with
  | false =>
      simp [try_read, lib_try_read, State.has_writer, State.add_reader, hb]
  | true =>
      simp [try_read, lib_try_read, State.has_writer, hb]

/-- C8, witness: on a lock whose writer flag is set the probe is denied
with `WouldBlock`. -/
theorem C8_try_read_spec_witness :
    lib_try_read ⟨true, 0, 0, 0⟩ = Except.error TryError.WouldBlock :=
  ((C8_try_read_spec ⟨true, 0, 0, 0⟩).2.2 rfl).2

/-- C9: the handle-level `write()` performs exactly the composition
"take a ticket, then immediately redeem that ticket guard via its
`write()` method": the two produce the same ticket and the same
admission-state transition from every starting state; in particular
from an uncontended state it acquires with the freshly issued ticket,
and with readers present it blocks. -/
theorem C9_write_refines_take_then_redeem (s : State) :
    handle_write s = spec_take_then_redeem s
    ∧ (s.writer = false → s.readers = 0 →
        handle_write s
          = some (s.total_tickets,
              ⟨true, 0, s.next_ticket + 1, s.total_tickets + 1⟩))
    ∧ (0 < s.readers → handle_write s = none) := by
  refine ⟨rfl, ?_, ?_⟩
  · intro hw hr
    simp [handle_write, ticket_guard_write, write_seq, State.take_ticket,
      State.add_writer, State.has_writer, State.is_next, State.has_readers,
      hw, hr]
  · intro hr
    have hr2 : s.readers ≠ 0 := Nat.pos_iff_ne_zero.mp hr
    simp [handle_write, ticket_guard_write, write_seq, State.take_ticket,
      State.add_writer, State.has_writer, State.is_next, State.has_readers,
      hr2]

/-- C9, witness: on the fresh lock the handle-level `write()` acquires
with ticket 0 and sets the writer flag. -/
theorem C9_write_refines_witness :
    handle_write State.new
      = some (State.new.total_tickets,
          ⟨true, 0, State.new.next_ticket + 1,
            State.new.total_tickets + 1⟩) :=
  (C9_write_refines_take_then_redeem State.new).2.1 rfl rfl

/-! ### The guard layer's use of the raw lock (src/lib.rs) -/

/-- A ticket guard as its destructor machinery sees it: the held
ticket, and whether the destructor is still armed (`mem::forget`
disarms it). -/
structure TicketGuard where
  ticket : Nat
  armed : Bool
deriving DecidableEq, Repr

/-- A call into the raw lock made by the guard layer. -/
inductive RawCall where
  | writeCall (t : Nat)
  | writeUnlockCall
deriving DecidableEq, Repr

/-- Rust `mem::forget(ticket)` in `QueuedRwLockWriteGuard::new` (src/lib.rs
line 140): the ticket guard's destructor will never run.  It executes
unconditionally — after `map_result` has produced either the `Ok` write
guard or the poisoned error carrying the write guard. -/
def forget_ticket (g : TicketGuard) : TicketGuard := { g with armed := false }

/-- Raw calls made by `Drop for QueuedRwLockTicketGuard` (src/lib.rs
lines 185-192): nothing if the guard was forgotten; otherwise
`write(self.ticket)` then `write_unlock()`. -/
def ticket_drop_calls (g : TicketGuard) : List RawCall :=
  if g.armed then [RawCall.writeCall g.ticket, RawCall.writeUnlockCall]
  else []

/-- Raw calls of `Drop for QueuedRwLockWriteGuard` (src/lib.rs lines
158-160): `write_unlock()`.  This destructor runs exactly once per
write guard, whether the guard was returned as `Ok` or inside the
poisoned error. -/
def write_guard_drop_calls : List RawCall := [RawCall.writeUnlockCall]

/-- Raw calls over the whole life of a redeemed ticket guard:
`QueuedRwLockTicketGuard::write` calls the raw `write(self.ticket)`,
then `QueuedRwLockWriteGuard::new` forgets the ticket guard (whose
destructor therefore contributes nothing), and the write guard's own
destructor eventually releases. -/
def redeem_calls (g : TicketGuard) : List RawCall :=
  [RawCall.writeCall g.ticket] ++ ticket_drop_calls (forget_ticket g)
    ++ write_guard_drop_calls

/-- C10: for a freshly issued (armed) ticket guard, both possible
lifecycles — redemption into a write guard (success or poisoned), and
abandonment via the destructor — invoke the raw `write(ticket)` exactly
once and `write_unlock` exactly once, and a forgotten ticket guard's
destructor performs no raw call at all: no double release. -/
theorem C10_no_double_release (t : Nat) :
    redeem_calls ⟨t, true⟩
      = [RawCall.writeCall t, RawCall.writeUnlockCall]
    ∧ ticket_drop_calls ⟨t, true⟩
      = [RawCall.writeCall t, RawCall.writeUnlockCall]
    ∧ ticket_drop_calls (forget_ticket ⟨t, true⟩) = []
    ∧ (redeem_calls ⟨t, true⟩).count (RawCall.writeCall t) = 1
    ∧ (redeem_calls ⟨t, true⟩).count RawCall.writeUnlockCall = 1
    ∧ (ticket_drop_calls ⟨t, true⟩).count (RawCall.writeCall t) = 1
    ∧ (ticket_drop_calls ⟨t, true⟩).count RawCall.writeUnlockCall = 1 := by
  refine ⟨rfl, rfl, rfl, ?_, ?_, ?_, ?_⟩ <;>
    simp [redeem_calls, ticket_drop_calls, forget_ticket,
      write_guard_drop_calls, List.count_cons, List.count_nil]

end QueuedRwLock
